import Mathlib

/-!
Verification development for the Ouroboros supervisor git layer
(supervisor/git_ops.py) and the launcher boot/watchdog logic
(colab_launcher.py).

The Python code is shallowly embedded: every subprocess call and
filesystem operation is resolved through an explicit environment
(oracle) value, and every externally visible mutation is recorded in an
effect trace.  Functions that can raise a Python exception return an
Except value; functions that catch all exceptions return plain pairs.
-/

namespace Ouroboros

/-- Result of a captured git subprocess (returncode, stripped stdout,
stripped stderr), mirroring git_capture in supervisor/git_ops.py. -/
structure GitRes where
  rc : Nat
  out : String
  err : String
deriving DecidableEq, Repr

/-- The persistent state document (supervisor/state.py is not part of the
sources; the fields used by git_ops.py are modelled here).
Modelled from the spec: the Persistent State Document holds current
branch, current commit, and last restart metadata; load_state and
save_state read and atomically write it. -/
structure StateDoc where
  currentBranch : String
  currentSha : String
  lastRestartOkAt : Option String
  lastRestartReason : Option String
  autoResumeOk : Option Bool
  autoResumeMsg : Option String
deriving DecidableEq, Repr

/-- Python exceptions that the embedded code can raise. -/
inductive PyExn where
  | calledProcessError (cmd : String)
  | osError (what : String)
deriving DecidableEq, Repr

/-- Python repr of an exception (shape only; the exact text is not
load-bearing for any claim). -/
def pyRepr : PyExn → String
  | .calledProcessError c => "CalledProcessError: " ++ c
  | .osError w => "OSError: " ++ w

/-- Externally visible side effects of the git layer. -/
inductive Effect where
  | appendLog (ty : String)
  | mkdirRescueDir (path : String)
  | writeRescueFile (name : String)
  | mkdirUntrackedRoot
  | mkdirParentDir (rel : String)
  | copyFile (rel : String)
  | gitCheckout (branch : String)
  | gitCreateBranch (branch : String)
  | gitPush (refspec : String)
  | gitResetHard (target : String)
  | purgePycache
  | saveState (st : StateDoc)
  | unlinkMarker
  | pipInstall
  | importModules
deriving DecidableEq, Repr

/-- True for effects that only write into the rescue snapshot directory
(never the working tree or the state document). -/
def Effect.isRescueWrite : Effect → Bool
  | .mkdirRescueDir _ => true
  | .writeRescueFile _ => true
  | .mkdirUntrackedRoot => true
  | .mkdirParentDir _ => true
  | .copyFile _ => true
  | _ => false

/-- True for effects that mutate the working tree or the persistent
state document: checkouts, branch creation, pushes, hard resets, cache
purges and state saves. -/
def Effect.isMutation : Effect → Bool
  | .gitCheckout _ => true
  | .gitCreateBranch _ => true
  | .gitPush _ => true
  | .gitResetHard _ => true
  | .purgePycache => true
  | .saveState _ => true
  | _ => false

/-- Whitespace test matching Python str.strip's default set (the
characters that occur in git output). -/
def isPySpace (c : Char) : Bool :=
  c = ' ' || c = '\t' || c = '\n' || c = '\r'

/-- Python str.strip(): drop leading and trailing whitespace. -/
def pyStrip (s : String) : String :=
  String.mk (((s.data.dropWhile isPySpace).reverse.dropWhile isPySpace).reverse)

/-- Python str.lower() (ASCII case fold, enough for policy strings). -/
def pyLower (s : String) : String :=
  String.mk (s.data.map Char.toLower)

/-- Split a string at newline characters (Python str.splitlines on git
output, which git_capture has already stripped of trailing newlines). -/
def splitLinesAux : List Char → List Char → List String
  | [], cur => [String.mk cur.reverse]
  | c :: rest, cur =>
    if c = '\n' then String.mk cur.reverse :: splitLinesAux rest []
    else splitLinesAux rest (c :: cur)

/-- Lines of a string, as Python str.splitlines for newline-separated
git output. -/
def splitLines (s : String) : List String := splitLinesAux s.data []

/-- The idiom [ln for ln in txt.splitlines() if ln.strip()]. -/
def pyLines (s : String) : List String :=
  (splitLines s).filter (fun ln => pyStrip ln ≠ "")

/-- The idiom [ln.strip() for ln in txt.splitlines() if ln.strip()]. -/
def pyLinesStripped (s : String) : List String :=
  ((splitLines s).map pyStrip).filter (fun ln => ln ≠ "")

/-- Environment for _collect_repo_sync_state: the four git_capture
results it consumes, in call order. -/
structure CollectEnv where
  headBranch : GitRes
  statusPorcelain : GitRes
  upstreamRef : GitRes
  unpushedLog : GitRes
deriving DecidableEq, Repr

/-- Repository Sync State as collected by _collect_repo_sync_state. -/
structure RepoSyncState where
  currentBranch : String
  dirtyLines : List String
  unpushedLines : List String
  warnings : List String
deriving DecidableEq, Repr

/-- Embedding of _collect_repo_sync_state (supervisor/git_ops.py,
lines 71-109): derive branch, dirty lines, unpushed lines and warnings
from the four git queries. -/
def collect_repo_sync_state (e : CollectEnv) : RepoSyncState :=
  let cb : String :=
    if e.headBranch.rc = 0 ∧ e.headBranch.out ≠ "" then e.headBranch.out else "unknown"
  let w1 : List String :=
    if e.headBranch.rc = 0 ∧ e.headBranch.out ≠ "" then []
    else if e.headBranch.err ≠ "" then ["branch_error:" ++ e.headBranch.err] else []
  let dirty : List String :=
    if e.statusPorcelain.rc = 0 ∧ e.statusPorcelain.out ≠ "" then
      pyLines e.statusPorcelain.out
    else []
  let w2 : List String :=
    if e.statusPorcelain.rc = 0 ∧ e.statusPorcelain.out ≠ "" then []
    else if e.statusPorcelain.rc ≠ 0 ∧ e.statusPorcelain.err ≠ "" then
      ["status_error:" ++ e.statusPorcelain.err]
    else []
  let upstream : String :=
    if e.upstreamRef.rc = 0 ∧ e.upstreamRef.out ≠ "" then e.upstreamRef.out
    else if cb ≠ "" ∧ cb ≠ "HEAD" ∧ cb ≠ "unknown" then "origin/" ++ cb
    else ""
  let w3 : List String :=
    if e.upstreamRef.rc = 0 ∧ e.upstreamRef.out ≠ "" then []
    else if cb ≠ "" ∧ cb ≠ "HEAD" ∧ cb ≠ "unknown" then []
    else if e.upstreamRef.err ≠ "" then ["upstream_error:" ++ e.upstreamRef.err]
    else []
  let unpushed : List String :=
    if upstream ≠ "" ∧ e.unpushedLog.rc = 0 ∧ e.unpushedLog.out ≠ "" then
      pyLines e.unpushedLog.out
    else []
  let w4 : List String :=
    if upstream = "" then []
    else if e.unpushedLog.rc = 0 ∧ e.unpushedLog.out ≠ "" then []
    else if e.unpushedLog.rc ≠ 0 ∧ e.unpushedLog.err ≠ "" then
      ["unpushed_error:" ++ e.unpushedLog.err]
    else []
  { currentBranch := cb, dirtyLines := dirty, unpushedLines := unpushed,
    warnings := w1 ++ w2 ++ w3 ++ w4 }

/-- Filesystem facts about one untracked file, resolved per relative
path: whether it resolves inside the repo, whether it exists and is a
regular file, its size (none when stat raises), whether the parent
mkdir succeeds, and whether the copy succeeds. -/
structure FileInfo where
  withinRepo : Bool
  isFile : Bool
  statSize : Option Nat
  parentMkdirOk : Bool
  copyOk : Bool

/-- Environment for _copy_untracked_for_rescue. -/
structure CopyEnv where
  lsFiles : GitRes
  mkdirRootOk : Bool
  fileInfo : String → FileInfo

/-- Metadata dictionary returned by _copy_untracked_for_rescue. -/
structure CopyOut where
  copiedFiles : Nat
  skippedFiles : Nat
  copiedBytes : Nat
  truncated : Bool
  errorMsg : Option String
deriving DecidableEq, Repr

/-- Initial metadata dictionary of _copy_untracked_for_rescue. -/
def initCopyOut : CopyOut :=
  { copiedFiles := 0, skippedFiles := 0, copiedBytes := 0,
    truncated := false, errorMsg := none }

/-- The for-loop of _copy_untracked_for_rescue (lines 127-155): walk
the untracked paths, enforcing the file-count bound, the per-file
checks and the total-byte bound.  Returns the effect trace, and on
normal exit the metadata together with the unprocessed remainder of the
list (empty unless a bound broke the loop). -/
def copyLoop (fi : String → FileInfo) (maxFiles maxBytes : Nat) :
    List String → CopyOut → List Effect × Except PyExn (CopyOut × List String)
  | [], acc => ([], .ok (acc, []))
  | rel :: rest, acc =>
    if maxFiles ≤ acc.copiedFiles then
      ([], .ok ({ acc with truncated := true }, rel :: rest))
    else
      let f := fi rel
      if f.withinRepo = false then
        copyLoop fi maxFiles maxBytes rest
          { acc with skippedFiles := acc.skippedFiles + 1 }
      else if f.isFile = false then
        copyLoop fi maxFiles maxBytes rest
          { acc with skippedFiles := acc.skippedFiles + 1 }
      else
        match f.statSize with
        | none =>
          copyLoop fi maxFiles maxBytes rest
            { acc with skippedFiles := acc.skippedFiles + 1 }
        | some size =>
          if maxBytes < acc.copiedBytes + size then
            ([], .ok ({ acc with truncated := true }, rel :: rest))
          else if f.parentMkdirOk = false then
            ([], .error (.osError ("mkdir parent of " ++ rel)))
          else
            let stepEffs :=
              Effect.mkdirParentDir rel ::
                (if f.copyOk then [Effect.copyFile rel] else [])
            let acc2 :=
              if f.copyOk then
                { acc with copiedFiles := acc.copiedFiles + 1,
                           copiedBytes := acc.copiedBytes + size }
              else { acc with skippedFiles := acc.skippedFiles + 1 }
            let r := copyLoop fi maxFiles maxBytes rest acc2
            (stepEffs ++ r.1, r.2)

/-- Untracked path list as computed at line 122:
[ln.strip() for ln in txt.splitlines() if ln.strip()]. -/
def lsLines (g : GitRes) : List String := pyLinesStripped g.out

/-- Embedding of _copy_untracked_for_rescue (lines 112-156): bounded
copy of untracked files into the rescue directory. -/
def copy_untracked_for_rescue (e : CopyEnv) (maxFiles maxBytes : Nat) :
    List Effect × Except PyExn CopyOut :=
  if e.lsFiles.rc ≠ 0 then
    ([], .ok { initCopyOut with
        errorMsg := some (if e.lsFiles.err ≠ "" then e.lsFiles.err
                          else "git ls-files failed") })
  else if lsLines e.lsFiles = [] then ([], .ok initCopyOut)
  else if e.mkdirRootOk = false then
    ([], .error (.osError "mkdir untracked root"))
  else
    (Effect.mkdirUntrackedRoot ::
       (copyLoop e.fileInfo maxFiles maxBytes (lsLines e.lsFiles) initCopyOut).1,
     match (copyLoop e.fileInfo maxFiles maxBytes (lsLines e.lsFiles) initCopyOut).2 with
     | .ok p => .ok p.1
     | .error ex => .error ex)

/-- Environment for _create_rescue_snapshot: whether the rescue
directory mkdir succeeds, the generated directory name, the two git
captures it performs, and the copy sub-environment. -/
structure RescueEnv where
  mkdirOk : Bool
  dirName : String
  statusPorcelain : GitRes
  diffRes : GitRes
  copyEnv : CopyEnv

/-- Metadata recorded in rescue_meta.json by _create_rescue_snapshot. -/
structure RescueInfo where
  targetBranch : String
  reason : String
  currentBranch : String
  dirtyCount : Nat
  unpushedCount : Nat
  warnings : List String
  path : String
  diffError : Option String
  untracked : CopyOut
deriving DecidableEq, Repr

/-- Embedding of _create_rescue_snapshot (lines 159-199): make the
timestamped rescue directory, write status and diff captures, copy
untracked files (bounded), write the unpushed commit list and the
metadata file.  The bounds 200 files and 12000000 bytes are the default
arguments of _copy_untracked_for_rescue. -/
def create_rescue_snapshot (branch reason : String) (rs : RepoSyncState)
    (e : RescueEnv) : List Effect × Except PyExn RescueInfo :=
  if e.mkdirOk = false then ([], .error (.osError "mkdir rescue dir"))
  else
    let effs1 : List Effect := [Effect.mkdirRescueDir e.dirName]
    let effs2 := effs1 ++
      (if e.statusPorcelain.rc = 0 then [Effect.writeRescueFile "status.porcelain.txt"] else [])
    let diffErr : Option String :=
      if e.diffRes.rc = 0 then none
      else some (if e.diffRes.err ≠ "" then e.diffRes.err else "git diff failed")
    let effs3 := effs2 ++
      (if e.diffRes.rc = 0 then [Effect.writeRescueFile "changes.diff"] else [])
    let c := copy_untracked_for_rescue e.copyEnv 200 12000000
    match c.2 with
    | .error ex => (effs3 ++ c.1, .error ex)
    | .ok cout =>
      let unp := (rs.unpushedLines.map pyStrip).filter (fun s => s ≠ "")
      let effs4 := effs3 ++ c.1 ++
        (if unp ≠ [] then [Effect.writeRescueFile "unpushed_commits.txt"] else [])
      let effs5 := effs4 ++ [Effect.writeRescueFile "rescue_meta.json"]
      (effs5, .ok {
        targetBranch := branch, reason := reason,
        currentBranch := rs.currentBranch,
        dirtyCount := rs.dirtyLines.length,
        unpushedCount := rs.unpushedLines.length,
        warnings := rs.warnings,
        path := e.dirName,
        diffError := diffErr,
        untracked := cout })

/-- Module configuration of git_ops (set via init): the development and
stable branch names. -/
structure GitConfig where
  branchDev : String
  branchStable : String
deriving DecidableEq, Repr

/-- Policy normalisation performed at lines 221-223:
str(unsynced_policy or "ignore").strip().lower(), then anything outside
the recognised set collapses to "ignore". -/
def normalizePolicy (p : Option String) : String :=
  let raw : String :=
    match p with
    | none => "ignore"
    | some s => if s = "" then "ignore" else s
  let n := pyLower (pyStrip raw)
  if n = "ignore" ∨ n = "block" ∨ n = "rescue_and_block" ∨ n = "rescue_and_reset"
  then n else "ignore"

/-- Outcome of the guarded rescue attempt inside checkout_and_reset:
not attempted, snapshot info, or the repr of a caught exception. -/
inductive RescueOutcome where
  | notAttempted
  | ok (info : RescueInfo)
  | failed (msg : String)
deriving DecidableEq, Repr

/-- Environment for checkout_and_reset: results of every subprocess
call site, in source order, plus the nested environments and the state
document returned by load_state. -/
structure CheckoutEnv where
  fetch : GitRes
  collect : CollectEnv
  rescue : RescueEnv
  lsRemoteStableRc : Nat
  checkoutDevRc : Nat
  pushDevToStableRc : Nat
  lsRemoteDevRc : Nat
  checkoutMainRc : Nat
  createDevRc : Nat
  pushDevRc : Nat
  verifyRc : Nat
  checkoutRc : Nat
  resetRc : Nat
  revParseHead : GitRes
  stateDoc : StateDoc

/-- The detail string of the blocked-reset message (lines 237-242). -/
def unsyncedDetail (rs : RepoSyncState) : String :=
  if rs.unpushedLines ≠ [] ∧ rs.dirtyLines ≠ [] then
    "unpushed=" ++ toString rs.unpushedLines.length ++ ", dirty=" ++
      toString rs.dirtyLines.length
  else if rs.unpushedLines ≠ [] then "unpushed=" ++ toString rs.unpushedLines.length
  else if rs.dirtyLines ≠ [] then "dirty=" ++ toString rs.dirtyLines.length
  else "unsynced"

/-- The rescue suffix of the blocked-reset message (lines 243-248). -/
def rescueSuffix : RescueOutcome → String
  | .notAttempted => ""
  | .ok i => if pyStrip i.path ≠ "" then " Rescue saved to " ++ pyStrip i.path ++ "." else ""
  | .failed m => " Rescue failed: " ++ m

/-- Branch creation, verification, checkout, hard reset, cache purge and
state update: lines 269-339 of checkout_and_reset, reached once the
unsynced-policy gate has been passed.  The three trailing subprocess
calls (git checkout, git reset, git rev-parse HEAD) use check=True and
are not wrapped in try/except, so their failures raise. -/
def resetPhase (cfg : GitConfig) (branch : String) (env : CheckoutEnv) :
    List Effect × Except PyExn (Bool × String) :=
  if branch = cfg.branchStable ∧ env.lsRemoteStableRc ≠ 0 ∧ env.checkoutDevRc ≠ 0 then
    ([], .ok (false, "Failed to create stable branch"))
  else if branch = cfg.branchStable ∧ env.lsRemoteStableRc ≠ 0 ∧ env.pushDevToStableRc ≠ 0 then
    ([Effect.gitCheckout cfg.branchDev], .ok (false, "Failed to create stable branch"))
  else
    let e1 : List Effect :=
      if branch = cfg.branchStable ∧ env.lsRemoteStableRc ≠ 0 then
        [Effect.gitCheckout cfg.branchDev,
         Effect.gitPush (cfg.branchDev ++ ":" ++ cfg.branchStable)]
      else []
    if branch = cfg.branchDev ∧ env.lsRemoteDevRc ≠ 0 ∧ env.checkoutMainRc ≠ 0 then
      (e1, .ok (false, "Failed to create dev branch"))
    else if branch = cfg.branchDev ∧ env.lsRemoteDevRc ≠ 0 ∧ env.createDevRc ≠ 0 then
      (e1 ++ [Effect.gitCheckout "main"], .ok (false, "Failed to create dev branch"))
    else if branch = cfg.branchDev ∧ env.lsRemoteDevRc ≠ 0 ∧ env.pushDevRc ≠ 0 then
      (e1 ++ [Effect.gitCheckout "main", Effect.gitCreateBranch cfg.branchDev],
       .ok (false, "Failed to create dev branch"))
    else
      let e2 : List Effect :=
        if branch = cfg.branchDev ∧ env.lsRemoteDevRc ≠ 0 then
          [Effect.gitCheckout "main", Effect.gitCreateBranch cfg.branchDev,
           Effect.gitPush cfg.branchDev]
        else []
      if env.verifyRc ≠ 0 then
        (e1 ++ e2 ++ [Effect.appendLog "reset_branch_missing"],
         .ok (false, "Branch " ++ branch ++ " not found on remote"))
      else if env.checkoutRc ≠ 0 then
        (e1 ++ e2, .error (.calledProcessError "git checkout"))
      else if env.resetRc ≠ 0 then
        (e1 ++ e2 ++ [Effect.gitCheckout branch], .error (.calledProcessError "git reset"))
      else if env.revParseHead.rc ≠ 0 then
        (e1 ++ e2 ++ [Effect.gitCheckout branch,
                      Effect.gitResetHard ("origin/" ++ branch), Effect.purgePycache],
         .error (.calledProcessError "git rev-parse HEAD"))
      else
        (e1 ++ e2 ++ [Effect.gitCheckout branch,
                      Effect.gitResetHard ("origin/" ++ branch), Effect.purgePycache,
                      Effect.saveState { env.stateDoc with
                        currentBranch := branch,
                        currentSha := env.revParseHead.out }],
         .ok (true, "ok"))

/-- The effects of the guarded rescue attempt at lines 230-236: the
snapshot is attempted exactly when the policy asks for a rescue. -/
def rescueEffectsOf (policy : String) (r : List Effect) : List Effect :=
  if policy = "rescue_and_block" ∨ policy = "rescue_and_reset" then r else []

/-- The rescue_info dictionary resulting from the guarded rescue
attempt: empty when not attempted, the snapshot info on success, the
repr of the caught exception on failure. -/
def rescueOutcomeOf (policy : String) (r : Except PyExn RescueInfo) : RescueOutcome :=
  if policy = "rescue_and_block" ∨ policy = "rescue_and_reset" then
    match r with
    | .ok i => .ok i
    | .error ex => .failed (pyRepr ex)
  else .notAttempted

/-- The blocked-reset failure message of lines 250-251. -/
def blockedMsg (rs : RepoSyncState) (ro : RescueOutcome) : String :=
  "Reset blocked (" ++ unsyncedDetail rs ++ ") to protect local changes." ++
    rescueSuffix ro

/-- Embedding of checkout_and_reset (lines 206-339) with the policy
already normalised: fetch, collect the Repository Sync State, apply the
unsynced-policy gate (optional rescue snapshot, optional block), then
branch creation, verification and the destructive reset. -/
def checkout_and_reset_core (cfg : GitConfig) (branch reason : String)
    (policy : String) (env : CheckoutEnv) :
    List Effect × Except PyExn (Bool × String) :=
  if env.fetch.rc ≠ 0 then
    ([Effect.appendLog "reset_fetch_failed"],
     .ok (false, "git fetch failed: " ++
       (if env.fetch.err ≠ "" then env.fetch.err else "unknown error")))
  else if (collect_repo_sync_state env.collect).dirtyLines ≠ [] ∨
          (collect_repo_sync_state env.collect).unpushedLines ≠ [] then
    if policy = "block" ∨ policy = "rescue_and_block" then
      (rescueEffectsOf policy
          (create_rescue_snapshot branch reason (collect_repo_sync_state env.collect)
            env.rescue).1 ++
        [Effect.appendLog "reset_blocked_unsynced_state"],
       .ok (false, blockedMsg (collect_repo_sync_state env.collect)
         (rescueOutcomeOf policy
           (create_rescue_snapshot branch reason (collect_repo_sync_state env.collect)
             env.rescue).2)))
    else
      (rescueEffectsOf policy
          (create_rescue_snapshot branch reason (collect_repo_sync_state env.collect)
            env.rescue).1 ++
        (resetPhase cfg branch env).1,
       (resetPhase cfg branch env).2)
  else
    resetPhase cfg branch env

/-- Embedding of checkout_and_reset as called with a raw (possibly
None) unsynced_policy string. -/
def checkout_and_reset (cfg : GitConfig) (branch reason : String)
    (policy : Option String) (env : CheckoutEnv) :
    List Effect × Except PyExn (Bool × String) :=
  checkout_and_reset_core cfg branch reason (normalizePolicy policy) env

/-- Environment for sync_runtime_dependencies: whether requirements.txt
exists and the pip exit code. -/
structure DepsEnv where
  reqExists : Bool
  pipRc : Nat
deriving DecidableEq, Repr

/-- Embedding of sync_runtime_dependencies (lines 347-376): pip install
from the manifest or the minimal fallback; every failure is caught and
returned as a failure pair, never raised. -/
def sync_runtime_dependencies (e : DepsEnv) : List Effect × (Bool × String) :=
  let source := if e.reqExists then "requirements:requirements.txt" else "fallback:minimal"
  if e.pipRc = 0 then
    ([Effect.pipInstall, Effect.appendLog "deps_sync_ok"], (true, source))
  else
    ([Effect.pipInstall, Effect.appendLog "deps_sync_error"],
     (false, pyRepr (.calledProcessError "pip install")))

/-- Environment for import_test: whether the core modules load, and the
repr of the exception when they do not. -/
structure ImportEnv where
  ok : Bool
  errRepr : String
deriving DecidableEq, Repr

/-- Embedding of import_test (lines 379-393): attempt to load the core
modules; failures are caught, logged and returned, never raised. -/
def runImportTest (e : ImportEnv) : List Effect × (Bool × String) :=
  if e.ok then ([Effect.importModules], (true, "ok"))
  else ([Effect.importModules, Effect.appendLog "import_test_error"], (false, e.errRepr))

/-- Environment for safe_restart: the checkout environment, the two
later stage environments, the state document loaded after the stages,
and the current UTC timestamp string. -/
structure SafeRestartEnv where
  checkout : CheckoutEnv
  deps : DepsEnv
  imp : ImportEnv
  stateDoc : StateDoc
  nowIso : String

/-- Embedding of safe_restart (lines 396-412): checkout and reset of the
development branch, then dependency sync, then import test, in strict
sequence with short-circuit on first failure; only full success records
last_restart_ok_at. -/
def safe_restart (cfg : GitConfig) (reason : String) (policy : Option String)
    (e : SafeRestartEnv) : List Effect × Except PyExn (Bool × String) :=
  let c := checkout_and_reset cfg cfg.branchDev reason policy e.checkout
  match c.2 with
  | .error ex => (c.1, .error ex)
  | .ok r1 =>
    if r1.1 = false then (c.1, .ok (false, r1.2))
    else
      let d := sync_runtime_dependencies e.deps
      if d.2.1 = false then (c.1 ++ d.1, .ok (false, d.2.2))
      else
        let i := runImportTest e.imp
        if i.2.1 = false then (c.1 ++ d.1 ++ i.1, .ok (false, i.2.2))
        else
          (c.1 ++ d.1 ++ i.1 ++
             [Effect.saveState { e.stateDoc with
                lastRestartOkAt := some e.nowIso,
                lastRestartReason := some reason }],
           .ok (true, "ok"))

/-- Contents of the restart marker file (keys may be absent). -/
structure Marker where
  expectedSha : Option String
  expectedBranch : Option String
deriving DecidableEq, Repr

/-- Environment for _verify_restart_marker: marker presence, the result
of reading and parsing it, and the two git HEAD queries (whose nonzero
exit raises CalledProcessError inside the guarded block). -/
structure MarkerEnv where
  markerExists : Bool
  parseResult : Except String Marker
  headSha : GitRes
  headBranch : GitRes

/-- Embedding of _verify_restart_marker (lines 477-500): compare the
marker against the actual commit and branch; every exception inside the
body is caught and reported as a failure pair, and the finally block
deletes the marker on every exit path of the body. -/
def verify_restart_marker (e : MarkerEnv) : List Effect × (Bool × String) :=
  if e.markerExists = false then ([], (true, "No restart marker"))
  else
    match e.parseResult with
    | .error msg =>
      ([Effect.unlinkMarker], (false, "Restart marker verification error: " ++ msg))
    | .ok m =>
      if e.headSha.rc ≠ 0 then
        ([Effect.unlinkMarker],
         (false, "Restart marker verification error: " ++
            pyRepr (.calledProcessError "git rev-parse HEAD")))
      else if e.headBranch.rc ≠ 0 then
        ([Effect.unlinkMarker],
         (false, "Restart marker verification error: " ++
            pyRepr (.calledProcessError "git rev-parse --abbrev-ref HEAD")))
      else if some e.headSha.out ≠ m.expectedSha ∨ some e.headBranch.out ≠ m.expectedBranch then
        ([Effect.unlinkMarker], (false, "Restart verification failed: mismatch"))
      else
        ([Effect.unlinkMarker], (true, "ok"))

/-- Embedding of auto_resume_after_restart (lines 503-512): run marker
verification, then record the outcome in the state document and proceed
regardless of the verification result. -/
def auto_resume_after_restart (e : MarkerEnv) (st : StateDoc) : List Effect :=
  let v := verify_restart_marker e
  v.1 ++ [Effect.saveState { st with
    autoResumeOk := some v.2.1, autoResumeMsg := some v.2.2 }]

/-- One poll observation of the direct-mode chat agent: its busy flag,
the idle seconds since last progress, the total seconds since task
start, and the owner chat id from the state document. -/
structure WatchObs where
  busy : Bool
  idleSec : Nat
  totalSec : Nat
  ownerChatId : Option Nat
deriving Repr

/-- Notifications and actions of the chat watchdog. -/
inductive WatchEffect where
  | warnSoft (chatId : Nat)
  | notifyHard (chatId : Nat)
  | resetAgent
deriving DecidableEq, Repr

/-- One iteration of _chat_watchdog_loop (colab_launcher.py, lines
293-331), as a function of the suppression flag soft_warned and the
current observation; returns the new flag and the effects emitted. -/
def watchdogStep (soft hard : Nat) (warned : Bool) (o : WatchObs) :
    Bool × List WatchEffect :=
  if o.busy = false then (false, [])
  else if hard ≤ o.idleSec then
    (false,
     (match o.ownerChatId with
      | some c => [WatchEffect.notifyHard c]
      | none => []) ++ [WatchEffect.resetAgent])
  else if soft ≤ o.idleSec ∧ warned = false then
    (true,
     match o.ownerChatId with
     | some c => [WatchEffect.warnSoft c]
     | none => [])
  else (warned, [])

/-- The watchdog loop run over a finite observation sequence, threading
the suppression flag and concatenating the emitted effects. -/
def watchdogRun (soft hard : Nat) : Bool → List WatchObs → Bool × List WatchEffect
  | warned, [] => (warned, [])
  | warned, o :: rest =>
    let s := watchdogStep soft hard warned o
    let r := watchdogRun soft hard s.1 rest
    (r.1, s.2 ++ r.2)

/-- Number of soft-timeout warnings in an effect list. -/
def countWarns (l : List WatchEffect) : Nat :=
  l.countP (fun e => match e with | .warnSoft _ => true | _ => false)

/-- A stall observation: the agent is busy and its idle time has
reached the soft timeout but not the hard timeout. -/
def IsStall (soft hard : Nat) (o : WatchObs) : Prop :=
  o.busy = true ∧ soft ≤ o.idleSec ∧ o.idleSec < hard

/-- Environment for the boot-time pending-queue restore handler: the
outcome of restore_pending_from_snapshot (which may raise on a corrupt
snapshot) and whether the snapshot file exists. -/
structure BootEnv where
  restoreResult : Except String Nat
  snapshotExists : Bool

/-- Boot-time side effects of the restore handler. -/
inductive BootEffect where
  | deleteSnapshot
  | persistSnapshot (reason : String)
  | notifyRestore (n : Nat)
deriving DecidableEq, Repr

/-- Embedding of the boot handler in colab_launcher.py lines 257-270:
restore the pending queue, treating a raise as zero restored tasks and
deleting the snapshot file if present, then persist a fresh snapshot
and notify the owner only when something was restored. -/
def bootRestorePending (e : BootEnv) (owner : Option Nat) : Nat × List BootEffect :=
  let p : Nat × List BootEffect :=
    match e.restoreResult with
    | .ok n => (n, [])
    | .error _ => (0, if e.snapshotExists then [BootEffect.deleteSnapshot] else [])
  let effs := p.2 ++ [BootEffect.persistSnapshot "startup"]
  let effs2 := effs ++
    (if 0 < p.1 then
      (match owner with
       | some _ => [BootEffect.notifyRestore p.1]
       | none => [])
     else [])
  (p.1, effs2)

/-- Classifier for the effects that the reset phase can emit. -/
def goodResetEff : Effect → Bool
  | .appendLog _ => true
  | .gitCheckout _ => true
  | .gitCreateBranch _ => true
  | .gitPush _ => true
  | .gitResetHard _ => true
  | .purgePycache => true
  | .saveState _ => true
  | _ => false

/-- Effects that do not belong to the dependency-sync or import stages
and leave the last_restart_ok_at field of any state document they save
equal to base. -/
def RestartSafe (base : Option String) (x : Effect) : Prop :=
  x ≠ Effect.pipInstall ∧ x ≠ Effect.importModules ∧
  ∀ d, x = Effect.saveState d → d.lastRestartOkAt = base

/-- The default branch configuration of the launcher
(BRANCH_DEV = "ouroboros", BRANCH_STABLE = "ouroboros-stable"). -/
def cfgD : GitConfig := { branchDev := "ouroboros", branchStable := "ouroboros-stable" }

/-- A state document as loaded before a reset. -/
def stateDoc0 : StateDoc :=
  { currentBranch := "main", currentSha := "oldsha",
    lastRestartOkAt := none, lastRestartReason := none,
    autoResumeOk := none, autoResumeMsg := none }

/-- Collection environment of a clean repository on branch main. -/
def collectClean : CollectEnv :=
  { headBranch := ⟨0, "main", ""⟩, statusPorcelain := ⟨0, "", ""⟩,
    upstreamRef := ⟨0, "origin/main", ""⟩, unpushedLog := ⟨0, "", ""⟩ }

/-- Collection environment of a repository with one dirty file and no
unpushed commits. -/
def collectDirty : CollectEnv :=
  { headBranch := ⟨0, "main", ""⟩, statusPorcelain := ⟨0, "M a.py", ""⟩,
    upstreamRef := ⟨0, "origin/main", ""⟩, unpushedLog := ⟨0, "", ""⟩ }

/-- Copy environment with no untracked files. -/
def copyEnvEmpty : CopyEnv :=
  { lsFiles := ⟨0, "", ""⟩, mkdirRootOk := true,
    fileInfo := fun _ => ⟨true, true, some 1, true, true⟩ }

/-- Rescue environment in which every filesystem operation succeeds. -/
def rescueOkEnv : RescueEnv :=
  { mkdirOk := true, dirName := "rescue/20260101_abc", statusPorcelain := ⟨0, "M a.py", ""⟩,
    diffRes := ⟨0, "diff", ""⟩, copyEnv := copyEnvEmpty }

/-- Rescue environment in which creating the rescue directory raises
(for example because the drive is unmounted). -/
def rescueRaisingEnv : RescueEnv :=
  { mkdirOk := false, dirName := "rescue/x", statusPorcelain := ⟨0, "", ""⟩,
    diffRes := ⟨0, "", ""⟩, copyEnv := copyEnvEmpty }

/-- Checkout environment in which every git subprocess succeeds. -/
def baseEnv (c : CollectEnv) (r : RescueEnv) : CheckoutEnv :=
  { fetch := ⟨0, "", ""⟩, collect := c, rescue := r,
    lsRemoteStableRc := 0, checkoutDevRc := 0, pushDevToStableRc := 0,
    lsRemoteDevRc := 0, checkoutMainRc := 0, createDevRc := 0, pushDevRc := 0,
    verifyRc := 0, checkoutRc := 0, resetRc := 0,
    revParseHead := ⟨0, "abc123", ""⟩, stateDoc := stateDoc0 }

/-- Dirty repository, everything else succeeding: C1 witness input. -/
def envC1 : CheckoutEnv := baseEnv collectDirty rescueOkEnv

/-- Dirty repository where creating the rescue directory raises while
all git subprocesses succeed: C2 counterexample input. -/
def envC2cx : CheckoutEnv := baseEnv collectDirty rescueRaisingEnv

/-- Dirty repository with a fully succeeding rescue snapshot: C2
amended-claim witness input. -/
def envC2w : CheckoutEnv := baseEnv collectDirty rescueOkEnv

/-- The rescue metadata produced on envC2w for target branch feature. -/
def infoC2 : RescueInfo :=
  { targetBranch := "feature", reason := "r", currentBranch := "main",
    dirtyCount := 1, unpushedCount := 0, warnings := [],
    path := "rescue/20260101_abc", diffError := none, untracked := initCopyOut }

/-- Clean repository where the final git checkout exits nonzero: C3
counterexample input (CalledProcessError propagates). -/
def envC3cx : CheckoutEnv :=
  { baseEnv collectClean rescueOkEnv with checkoutRc := 1 }

/-- Clean repository, reachable remote, target branch missing from the
remote.  Real git semantics at this input: ls-remote --heads origin B
exits 0 even when B does not exist (nonzero only on connection
failure), while rev-parse --verify origin/B exits nonzero because the
branch was never fetched.  Hence lsRemoteStableRc = 0 and
verifyRc = 128: C4 failing input. -/
def envC4 : CheckoutEnv :=
  { baseEnv collectClean rescueOkEnv with lsRemoteStableRc := 0, verifyRc := 128 }

/-- Safe-restart environment in which the checkout succeeds but pip
fails: C5 witness input. -/
def envC5 : SafeRestartEnv :=
  { checkout := baseEnv collectClean rescueOkEnv,
    deps := { reqExists := true, pipRc := 1 },
    imp := { ok := true, errRepr := "" },
    stateDoc := stateDoc0, nowIso := "2026-01-01T00:00:00+00:00" }

/-- Marker environment with a present, readable marker that does not
match the current commit: C6 witness input. -/
def envC6 : MarkerEnv :=
  { markerExists := true,
    parseResult := .ok { expectedSha := some "aaa", expectedBranch := some "ouroboros" },
    headSha := ⟨0, "bbb", ""⟩, headBranch := ⟨0, "ouroboros", ""⟩ }

/-- A two-observation stall episode above the soft timeout: C7 witness
input. -/
def epC7 : List WatchObs :=
  [{ busy := true, idleSec := 700, totalSec := 900, ownerChatId := some 5 },
   { busy := true, idleSec := 800, totalSec := 1000, ownerChatId := some 5 }]

/-- Copy environment with two small untracked files: C9 witness
input. -/
def envC9 : CopyEnv :=
  { lsFiles := ⟨0, "a.txt\nb.txt", ""⟩, mkdirRootOk := true,
    fileInfo := fun _ => ⟨true, true, some 5, true, true⟩ }

/-- Dirty repository with all git subprocesses succeeding: C10 witness
input, showing the reset proceeding under an unrecognised policy. -/
def envC10 : CheckoutEnv := baseEnv collectDirty rescueOkEnv

example : pyLines "M a.py\n?? b.py" = ["M a.py", "?? b.py"] := by decide
example : pyLinesStripped "  x.txt  \n\n y " = ["x.txt", "y"] := by decide
example : pyStrip "  Block " = "Block" := by decide
example : pyLower " Rescue_And_Reset" = " rescue_and_reset" := by decide

example : (collect_repo_sync_state collectDirty).dirtyLines = ["M a.py"] := by decide

example : (collect_repo_sync_state collectDirty).unpushedLines = [] := by decide

example :
    (checkout_and_reset cfgD "feature" "r" (some "block") envC1).2 =
      .ok (false, "Reset blocked (dirty=1) to protect local changes.") := by rfl

example :
    checkout_and_reset cfgD "feature" "r" (some "rescue_and_reset") envC2cx =
      ([Effect.gitCheckout "feature", Effect.gitResetHard "origin/feature",
        Effect.purgePycache,
        Effect.saveState ⟨"feature", "abc123", none, none, none, none⟩],
       .ok (true, "ok")) := by rfl

example :
    (create_rescue_snapshot "feature" "r" (collect_repo_sync_state collectDirty)
        rescueOkEnv).2 = .ok infoC2 := by rfl

example :
    (checkout_and_reset cfgD "feature" "r" (some "ignore") envC3cx).2 =
      .error (.calledProcessError "git checkout") := by rfl

example :
    checkout_and_reset cfgD "ouroboros-stable" "promote" (some "ignore") envC4 =
      ([Effect.appendLog "reset_branch_missing"],
       .ok (false, "Branch ouroboros-stable not found on remote")) := by rfl

example :
    (copy_untracked_for_rescue envC9 200 12000000).2 =
      .ok { copiedFiles := 2, skippedFiles := 0, copiedBytes := 10,
            truncated := false, errorMsg := none } := by rfl

lemma copyLoop_spec (fi : String → FileInfo) (mf mb : Nat) :
    ∀ (l : List String) (acc : CopyOut) (effs : List Effect) (out : CopyOut)
      (rem : List String),
      copyLoop fi mf mb l acc = (effs, .ok (out, rem)) →
      (acc.copiedFiles ≤ mf → out.copiedFiles ≤ mf) ∧
      (acc.copiedBytes ≤ mb → out.copiedBytes ≤ mb) ∧
      out.copiedFiles + out.skippedFiles + rem.length =
        acc.copiedFiles + acc.skippedFiles + l.length ∧
      (acc.truncated = false → (out.truncated = true ↔ rem ≠ [])) := by
  intro l
  induction l with
  | nil =>
    intro acc effs out rem h
    simp only [copyLoop, Prod.mk.injEq] at h
    obtain ⟨-, h2⟩ := h
    cases h2
    refine ⟨fun h => h, fun h => h, by simp, ?_⟩
    intro ht
    simp [ht]
  | cons rel rest ih =>
    intro acc effs out rem h
    simp only [copyLoop] at h
    split at h
    · -- file-count bound break
      simp only [Prod.mk.injEq] at h
      obtain ⟨-, h2⟩ := h
      cases h2
      exact ⟨fun h => h, fun h => h, by simp, fun _ => by simp⟩
    · split at h
      · -- outside repo: skipped
        have hr := ih _ _ _ _ h
        refine ⟨hr.1, hr.2.1, ?_, hr.2.2.2⟩
        have h3 := hr.2.2.1
        simp only [List.length_cons] at h3 ⊢
        omega
      · split at h
        · -- not a regular file: skipped
          have hr := ih _ _ _ _ h
          refine ⟨hr.1, hr.2.1, ?_, hr.2.2.2⟩
          have h3 := hr.2.2.1
          simp only [List.length_cons] at h3 ⊢
          omega
        · split at h
          · -- stat raises: skipped
            have hr := ih _ _ _ _ h
            refine ⟨hr.1, hr.2.1, ?_, hr.2.2.2⟩
            have h3 := hr.2.2.1
            simp only [List.length_cons] at h3 ⊢
            omega
          · split at h
            · -- byte bound break
              simp only [Prod.mk.injEq] at h
              obtain ⟨-, h2⟩ := h
              cases h2
              exact ⟨fun h => h, fun h => h, by simp, fun _ => by simp⟩
            · split at h
              · -- parent mkdir raises
                simp only [Prod.mk.injEq] at h
                obtain ⟨-, h2⟩ := h
                cases h2
              · -- copy attempt
                by_cases hc : (fi rel).copyOk = true
                · rw [if_pos hc, if_pos hc] at h
                  simp only [Prod.mk.injEq] at h
                  obtain ⟨-, h2⟩ := h
                  have hr := ih _ _ _ _ (Prod.ext_iff.mpr ⟨rfl, h2⟩)
                  refine ⟨?_, ?_, ?_, hr.2.2.2⟩
                  · intro _
                    exact hr.1 (by simp; omega)
                  · intro _
                    exact hr.2.1 (by simp; omega)
                  · have h3 := hr.2.2.1
                    simp only [List.length_cons] at h3 ⊢
                    omega
                · rw [if_neg hc, if_neg hc] at h
                  simp only [Prod.mk.injEq] at h
                  obtain ⟨-, h2⟩ := h
                  have hr := ih _ _ _ _ (Prod.ext_iff.mpr ⟨rfl, h2⟩)
                  refine ⟨hr.1, hr.2.1, ?_, hr.2.2.2⟩
                  have h3 := hr.2.2.1
                  simp only [List.length_cons] at h3 ⊢
                  omega

lemma copyLoop_effects (fi : String → FileInfo) (mf mb : Nat) :
    ∀ (l : List String) (acc : CopyOut) (x : Effect),
      x ∈ (copyLoop fi mf mb l acc).1 → x.isRescueWrite = true := by
  intro l
  induction l with
  | nil =>
    intro acc x hx
    simp [copyLoop] at hx
  | cons rel rest ih =>
    intro acc x hx
    simp only [copyLoop] at hx
    split at hx
    · simp at hx
    · split at hx
      · exact ih _ _ hx
      · split at hx
        · exact ih _ _ hx
        · split at hx
          · exact ih _ _ hx
          · split at hx
            · simp at hx
            · split at hx
              · simp at hx
              · rcases List.mem_append.mp hx with h1 | h2
                · rcases List.mem_cons.mp h1 with rfl | h3
                  · rfl
                  · split at h3
                    · rcases List.mem_singleton.mp h3 with rfl
                      rfl
                    · simp at h3
                · exact ih _ _ h2

lemma copy_untracked_effects (e : CopyEnv) (mfiles mbytes : Nat) :
    ∀ x ∈ (copy_untracked_for_rescue e mfiles mbytes).1, x.isRescueWrite = true := by
  intro x hx
  simp only [copy_untracked_for_rescue] at hx
  split at hx
  · simp at hx
  · split at hx
    · simp at hx
    · split at hx
      · simp at hx
      · rcases List.mem_cons.mp hx with rfl | h2
        · rfl
        · exact copyLoop_effects _ _ _ _ _ _ h2

lemma create_rescue_effects (branch reason : String) (rs : RepoSyncState)
    (e : RescueEnv) :
    ∀ x ∈ (create_rescue_snapshot branch reason rs e).1, x.isRescueWrite = true := by
  intro x hx
  by_cases hm : e.mkdirOk = false
  · simp [create_rescue_snapshot, hm] at hx
  · simp only [create_rescue_snapshot, if_neg hm] at hx
    cases hc : (copy_untracked_for_rescue e.copyEnv 200 12000000).2 with
    | error ex =>
      rw [hc] at hx
      simp only [] at hx
      rcases List.mem_append.mp hx with h1 | h2
      · rcases List.mem_append.mp h1 with h3 | h4
        · rcases List.mem_append.mp h3 with h5 | h6
          · rcases List.mem_singleton.mp h5 with rfl
            rfl
          · split at h6
            · rcases List.mem_singleton.mp h6 with rfl
              rfl
            · simp at h6
        · split at h4
          · rcases List.mem_singleton.mp h4 with rfl
            rfl
          · simp at h4
      · exact copy_untracked_effects _ _ _ _ h2
    | ok cout =>
      rw [hc] at hx
      simp only [] at hx
      rcases List.mem_append.mp hx with h1 | h2
      · rcases List.mem_append.mp h1 with h3 | h4
        · rcases List.mem_append.mp h3 with h5 | h6
          · rcases List.mem_append.mp h5 with h7 | h8
            · rcases List.mem_append.mp h7 with h9 | h10
              · rcases List.mem_singleton.mp h9 with rfl
                rfl
              · split at h10
                · rcases List.mem_singleton.mp h10 with rfl
                  rfl
                · simp at h10
            · split at h8
              · rcases List.mem_singleton.mp h8 with rfl
                rfl
              · simp at h8
          · exact copy_untracked_effects _ _ _ _ h6
        · split at h4
          · rcases List.mem_singleton.mp h4 with rfl
            rfl
          · simp at h4
      · rcases List.mem_singleton.mp h2 with rfl
        rfl

lemma create_rescue_ok (branch reason : String) (rs : RepoSyncState)
    (e : RescueEnv) (i : RescueInfo)
    (h : (create_rescue_snapshot branch reason rs e).2 = .ok i) :
    i.dirtyCount = rs.dirtyLines.length ∧
    i.unpushedCount = rs.unpushedLines.length ∧
    Effect.mkdirRescueDir e.dirName ∈ (create_rescue_snapshot branch reason rs e).1 := by
  by_cases hm : e.mkdirOk = false
  · simp [create_rescue_snapshot, hm] at h
  · simp only [create_rescue_snapshot, if_neg hm] at h ⊢
    cases hc : (copy_untracked_for_rescue e.copyEnv 200 12000000).2 with
    | error ex =>
      simp only [hc] at h
      simp at h
    | ok cout =>
      simp only [hc, Except.ok.injEq] at h
      subst h
      refine ⟨rfl, rfl, ?_⟩
      simp only [hc]
      simp

lemma goodResetEff_spec (x : Effect) (h : goodResetEff x = true) :
    x.isRescueWrite = false ∧ x ≠ Effect.pipInstall ∧ x ≠ Effect.importModules := by
  cases x <;> simp_all [goodResetEff, Effect.isRescueWrite]

set_option maxHeartbeats 1000000 in
lemma resetPhase_all_good (cfg : GitConfig) (branch : String) (env : CheckoutEnv) :
    ((resetPhase cfg branch env).1).all goodResetEff = true := by
  unfold resetPhase
  repeat' split
  all_goals simp [goodResetEff]

lemma resetPhase_effects (cfg : GitConfig) (branch : String) (env : CheckoutEnv) :
    ∀ x ∈ (resetPhase cfg branch env).1,
      x.isRescueWrite = false ∧ x ≠ Effect.pipInstall ∧ x ≠ Effect.importModules := by
  intro x hx
  exact goodResetEff_spec x (List.all_eq_true.mp (resetPhase_all_good cfg branch env) x hx)

set_option maxHeartbeats 1000000 in
lemma resetPhase_saveState (cfg : GitConfig) (branch : String) (env : CheckoutEnv) :
    ∀ d, Effect.saveState d ∈ (resetPhase cfg branch env).1 →
      d = { env.stateDoc with
            currentBranch := branch,
            currentSha := env.revParseHead.out } := by
  intro d hd
  unfold resetPhase at hd
  repeat' split at hd
  all_goals simp_all

set_option maxHeartbeats 1000000 in
lemma resetPhase_error (cfg : GitConfig) (branch : String) (env : CheckoutEnv)
    (ex : PyExn) (h : (resetPhase cfg branch env).2 = .error ex) :
    ex = .calledProcessError "git checkout" ∨ ex = .calledProcessError "git reset" ∨
      ex = .calledProcessError "git rev-parse HEAD" := by
  unfold resetPhase at h
  repeat' split at h
  all_goals simp_all

lemma rescueWrite_not_mutation (x : Effect) (h : x.isRescueWrite = true) :
    x.isMutation = false := by
  cases x <;> simp_all [Effect.isRescueWrite, Effect.isMutation]

lemma rescueEffectsOf_mem (policy : String) (r : List Effect) (x : Effect)
    (hx : x ∈ rescueEffectsOf policy r) : x ∈ r := by
  unfold rescueEffectsOf at hx
  split at hx
  · exact hx
  · simp at hx

lemma rescueWrite_restartSafe (base : Option String) (x : Effect)
    (h : x.isRescueWrite = true) : RestartSafe base x := by
  cases x <;> simp_all [Effect.isRescueWrite, RestartSafe]

lemma appendLog_restartSafe (base : Option String) (t : String) :
    RestartSafe base (Effect.appendLog t) := by
  simp [RestartSafe]

lemma resetPhase_restartSafe (cfg : GitConfig) (branch : String) (env : CheckoutEnv) :
    ∀ x ∈ (resetPhase cfg branch env).1,
      RestartSafe env.stateDoc.lastRestartOkAt x := by
  intro x hx
  have hk := resetPhase_effects cfg branch env x hx
  refine ⟨hk.2.1, hk.2.2, ?_⟩
  intro d hd
  rw [hd] at hx
  have h2 := resetPhase_saveState cfg branch env d hx
  rw [h2]

lemma core_error (cfg : GitConfig) (branch reason pol : String) (env : CheckoutEnv)
    (ex : PyExn)
    (h : (checkout_and_reset_core cfg branch reason pol env).2 = .error ex) :
    (resetPhase cfg branch env).2 = .error ex := by
  unfold checkout_and_reset_core at h
  by_cases hf : env.fetch.rc ≠ 0
  · rw [if_pos hf] at h
    simp at h
  · rw [if_neg hf] at h
    by_cases hd : (collect_repo_sync_state env.collect).dirtyLines ≠ [] ∨
        (collect_repo_sync_state env.collect).unpushedLines ≠ []
    · rw [if_pos hd] at h
      by_cases hb : pol = "block" ∨ pol = "rescue_and_block"
      · rw [if_pos hb] at h
        simp at h
      · rw [if_neg hb] at h
        exact h
    · rw [if_neg hd] at h
      exact h

lemma core_restartSafe (cfg : GitConfig) (branch reason pol : String)
    (env : CheckoutEnv) :
    ∀ x ∈ (checkout_and_reset_core cfg branch reason pol env).1,
      RestartSafe env.stateDoc.lastRestartOkAt x := by
  intro x hx
  unfold checkout_and_reset_core at hx
  by_cases hf : env.fetch.rc ≠ 0
  · rw [if_pos hf] at hx
    rcases List.mem_singleton.mp hx with rfl
    exact appendLog_restartSafe _ _
  · rw [if_neg hf] at hx
    by_cases hd : (collect_repo_sync_state env.collect).dirtyLines ≠ [] ∨
        (collect_repo_sync_state env.collect).unpushedLines ≠ []
    · rw [if_pos hd] at hx
      by_cases hb : pol = "block" ∨ pol = "rescue_and_block"
      · rw [if_pos hb] at hx
        rcases List.mem_append.mp hx with h1 | h2
        · exact rescueWrite_restartSafe _ x
            (create_rescue_effects _ _ _ _ x (rescueEffectsOf_mem _ _ x h1))
        · rcases List.mem_singleton.mp h2 with rfl
          exact appendLog_restartSafe _ _
      · rw [if_neg hb] at hx
        rcases List.mem_append.mp hx with h1 | h2
        · exact rescueWrite_restartSafe _ x
            (create_rescue_effects _ _ _ _ x (rescueEffectsOf_mem _ _ x h1))
        · exact resetPhase_restartSafe cfg branch env x h2
    · rw [if_neg hd] at hx
      exact resetPhase_restartSafe cfg branch env x hx

lemma core_ignore_no_rescue (cfg : GitConfig) (branch reason : String)
    (env : CheckoutEnv) :
    ∀ x ∈ (checkout_and_reset_core cfg branch reason "ignore" env).1,
      x.isRescueWrite = false := by
  intro x hx
  unfold checkout_and_reset_core at hx
  by_cases hf : env.fetch.rc ≠ 0
  · rw [if_pos hf] at hx
    rcases List.mem_singleton.mp hx with rfl
    rfl
  · rw [if_neg hf] at hx
    by_cases hd : (collect_repo_sync_state env.collect).dirtyLines ≠ [] ∨
        (collect_repo_sync_state env.collect).unpushedLines ≠ []
    · rw [if_pos hd] at hx
      rw [if_neg (by decide : ¬("ignore" = "block" ∨ "ignore" = "rescue_and_block"))] at hx
      rcases List.mem_append.mp hx with h1 | h2
      · exfalso
        have h3 := rescueEffectsOf_mem _ _ x h1
        unfold rescueEffectsOf at h1
        rw [if_neg (by decide :
          ¬("ignore" = "rescue_and_block" ∨ "ignore" = "rescue_and_reset"))] at h1
        simp at h1
      · exact (resetPhase_effects cfg branch env x h2).1
    · rw [if_neg hd] at hx
      exact (resetPhase_effects cfg branch env x hx).1

lemma core_block_no_mutation (cfg : GitConfig) (branch reason pol : String)
    (env : CheckoutEnv)
    (hp : pol = "block" ∨ pol = "rescue_and_block")
    (hd : (collect_repo_sync_state env.collect).dirtyLines ≠ [] ∨
          (collect_repo_sync_state env.collect).unpushedLines ≠ []) :
    (∃ m, (checkout_and_reset_core cfg branch reason pol env).2 = .ok (false, m)) ∧
    ∀ x ∈ (checkout_and_reset_core cfg branch reason pol env).1,
      x.isMutation = false := by
  unfold checkout_and_reset_core
  by_cases hf : env.fetch.rc ≠ 0
  · rw [if_pos hf]
    refine ⟨⟨_, rfl⟩, ?_⟩
    intro x hx
    rcases List.mem_singleton.mp hx with rfl
    rfl
  · rw [if_neg hf, if_pos hd, if_pos hp]
    refine ⟨⟨_, rfl⟩, ?_⟩
    intro x hx
    rcases List.mem_append.mp hx with h1 | h2
    · exact rescueWrite_not_mutation x
        (create_rescue_effects _ _ _ _ x (rescueEffectsOf_mem _ _ x h1))
    · rcases List.mem_singleton.mp h2 with rfl
      rfl

lemma normalizePolicy_cases (p : Option String) :
    normalizePolicy p = "ignore" ∨ normalizePolicy p = "block" ∨
    normalizePolicy p = "rescue_and_block" ∨ normalizePolicy p = "rescue_and_reset" := by
  cases p with
  | none =>
    simp only [normalizePolicy]
    split
    · rename_i h
      exact h
    · left
      rfl
  | some s =>
    simp only [normalizePolicy]
    split
    · split
      · rename_i h2
        exact h2
      · left
        rfl
    · split
      · rename_i h2
        exact h2
      · left
        rfl

lemma watchdogRun_append (soft hard : Nat) (l1 l2 : List WatchObs) (w : Bool) :
    watchdogRun soft hard w (l1 ++ l2) =
      ((watchdogRun soft hard (watchdogRun soft hard w l1).1 l2).1,
       (watchdogRun soft hard w l1).2 ++
         (watchdogRun soft hard (watchdogRun soft hard w l1).1 l2).2) := by
  induction l1 generalizing w with
  | nil =>
    simp [watchdogRun]
  | cons o rest ih =>
    have h1 : (o :: rest) ++ l2 = o :: (rest ++ l2) := rfl
    rw [h1]
    have h2 : watchdogRun soft hard w (o :: (rest ++ l2)) =
        ((watchdogRun soft hard (watchdogStep soft hard w o).1 (rest ++ l2)).1,
         (watchdogStep soft hard w o).2 ++
           (watchdogRun soft hard (watchdogStep soft hard w o).1 (rest ++ l2)).2) := rfl
    have h3 : watchdogRun soft hard w (o :: rest) =
        ((watchdogRun soft hard (watchdogStep soft hard w o).1 rest).1,
         (watchdogStep soft hard w o).2 ++
           (watchdogRun soft hard (watchdogStep soft hard w o).1 rest).2) := rfl
    rw [h2, h3, ih]
    simp [List.append_assoc]

lemma watchdogStep_stall_warned (soft hard : Nat) (o : WatchObs)
    (h : IsStall soft hard o) :
    watchdogStep soft hard true o = (true, []) := by
  obtain ⟨hb, hs, hh⟩ := h
  unfold watchdogStep
  rw [if_neg (by simp [hb]), if_neg (by omega), if_neg (by simp)]

lemma watchdogRun_stall_warned (soft hard : Nat) (ep : List WatchObs)
    (h : ∀ o ∈ ep, IsStall soft hard o) :
    watchdogRun soft hard true ep = (true, []) := by
  induction ep with
  | nil => rfl
  | cons o rest ih =>
    simp only [watchdogRun]
    rw [watchdogStep_stall_warned soft hard o (h o (by simp))]
    rw [ih (fun x hx => h x (by simp [hx]))]
    rfl

lemma watchdogRun_stall_count (soft hard : Nat) (ep : List WatchObs) (w : Bool)
    (h : ∀ o ∈ ep, IsStall soft hard o) :
    countWarns (watchdogRun soft hard w ep).2 ≤ 1 := by
  cases w with
  | true =>
    rw [watchdogRun_stall_warned soft hard ep h]
    simp [countWarns]
  | false =>
    cases ep with
    | nil => simp [watchdogRun, countWarns]
    | cons o rest =>
      have ho := h o (by simp)
      obtain ⟨hb, hs, hh⟩ := ho
      simp only [watchdogRun]
      have hstep : watchdogStep soft hard false o =
          (true, match o.ownerChatId with
                 | some c => [WatchEffect.warnSoft c]
                 | none => []) := by
        unfold watchdogStep
        rw [if_neg (by simp [hb]), if_neg (by omega), if_pos (by exact ⟨hs, rfl⟩)]
      rw [hstep]
      rw [watchdogRun_stall_warned soft hard rest (fun x hx => h x (by simp [hx]))]
      cases o.ownerChatId <;> simp [countWarns]

lemma watchdogStep_clears_only (soft hard : Nat) (w : Bool) (o : WatchObs)
    (h : (watchdogStep soft hard w o).1 = false) :
    w = false ∨ o.busy = false ∨ hard ≤ o.idleSec := by
  unfold watchdogStep at h
  split at h
  · right
    left
    assumption
  · split at h
    · right
      right
      assumption
    · split at h
      · simp at h
      · left
        exact h

lemma verify_marker_trace (e : MarkerEnv) (h : e.markerExists = true) :
    (verify_restart_marker e).1 = [Effect.unlinkMarker] := by
  unfold verify_restart_marker
  rw [if_neg (by simp [h])]
  cases hpr : e.parseResult with
  | error msg => rfl
  | ok m =>
    repeat' split
    all_goals rfl

lemma deps_trace_no_save (e : DepsEnv) (d : StateDoc) :
    Effect.saveState d ∉ (sync_runtime_dependencies e).1 := by
  intro hd
  unfold sync_runtime_dependencies at hd
  repeat' split at hd
  all_goals simp_all

lemma import_trace_no_save (e : ImportEnv) (d : StateDoc) :
    Effect.saveState d ∉ (runImportTest e).1 := by
  intro hd
  unfold runImportTest at hd
  split at hd <;> simp_all

/-- C1: for every call of checkout_and_reset with unsynced_policy
"block" or "rescue_and_block" in which the collected Repository Sync
State has non-empty dirty lines or non-empty unpushed lines, the
function returns a failure result (false plus a message) and its effect
trace contains no checkout, no hard reset, no cache purge and no
state-document save, so the working tree and the persisted
branch/commit fields are unchanged. -/
theorem C1_block_policy_no_mutation (cfg : GitConfig) (branch reason : String)
    (policy : Option String) (env : CheckoutEnv)
    (hpol : policy = some "block" ∨ policy = some "rescue_and_block")
    (hun : (collect_repo_sync_state env.collect).dirtyLines ≠ [] ∨
           (collect_repo_sync_state env.collect).unpushedLines ≠ []) :
    (∃ m, (checkout_and_reset cfg branch reason policy env).2 = .ok (false, m)) ∧
    ∀ x ∈ (checkout_and_reset cfg branch reason policy env).1,
      x.isMutation = false := by
  have hp : normalizePolicy policy = "block" ∨
      normalizePolicy policy = "rescue_and_block" := by
    rcases hpol with rfl | rfl
    · left
      rfl
    · right
      rfl
  unfold checkout_and_reset
  exact core_block_no_mutation cfg branch reason (normalizePolicy policy) env hp hun

/-- Witness for C1: a concrete dirty repository under policy block. -/
theorem C1_witness :
    (∃ m, (checkout_and_reset cfgD "feature" "r" (some "block") envC1).2 =
      .ok (false, m)) ∧
    ∀ x ∈ (checkout_and_reset cfgD "feature" "r" (some "block") envC1).1,
      x.isMutation = false :=
  C1_block_policy_no_mutation cfgD "feature" "r" (some "block") envC1
    (Or.inl rfl) (Or.inl (by decide))

/-- C2 counterexample: under rescue_and_reset with a dirty working tree,
when creating the rescue directory raises (drive unmounted), the caught
exception is recorded and the destructive reset still runs: the trace
contains the hard reset and no rescue-directory creation, refuting the
claim that a rescue snapshot directory is always created before the
reset. -/
theorem C2_counterexample :
    (collect_repo_sync_state envC2cx.collect).dirtyLines = ["M a.py"] ∧
    checkout_and_reset cfgD "feature" "r" (some "rescue_and_reset") envC2cx =
      ([Effect.gitCheckout "feature", Effect.gitResetHard "origin/feature",
        Effect.purgePycache,
        Effect.saveState ⟨"feature", "abc123", none, none, none, none⟩],
       .ok (true, "ok")) :=
  ⟨by decide, by rfl⟩

/-- C2 (amended): under rescue_and_reset with dirty or unpushed lines,
whenever the rescue snapshot creation does not raise, the snapshot
directory creation appears in the trace before any hard reset, and the
snapshot records dirty and unpushed counts equal to the lengths of the
pre-mutation Repository Sync State lists; if creation raises, the reset
proceeds without a snapshot (see the counterexample). -/
theorem C2_rescue_before_reset (cfg : GitConfig) (branch reason : String)
    (policy : Option String) (env : CheckoutEnv) (info : RescueInfo)
    (hp : normalizePolicy policy = "rescue_and_reset")
    (hf : env.fetch.rc = 0)
    (hun : (collect_repo_sync_state env.collect).dirtyLines ≠ [] ∨
           (collect_repo_sync_state env.collect).unpushedLines ≠ [])
    (hr : (create_rescue_snapshot branch reason (collect_repo_sync_state env.collect)
            env.rescue).2 = .ok info) :
    info.dirtyCount = (collect_repo_sync_state env.collect).dirtyLines.length ∧
    info.unpushedCount = (collect_repo_sync_state env.collect).unpushedLines.length ∧
    ∃ t1 t2, (checkout_and_reset cfg branch reason policy env).1 = t1 ++ t2 ∧
      Effect.mkdirRescueDir env.rescue.dirName ∈ t1 ∧
      ∀ tgt, Effect.gitResetHard tgt ∉ t1 := by
  have hcounts := create_rescue_ok branch reason _ env.rescue info hr
  refine ⟨hcounts.1, hcounts.2.1, ?_⟩
  unfold checkout_and_reset checkout_and_reset_core
  rw [hp]
  rw [if_neg (fun hcon => hcon hf), if_pos hun]
  rw [if_neg (by decide :
    ¬("rescue_and_reset" = "block" ∨ "rescue_and_reset" = "rescue_and_block"))]
  refine ⟨rescueEffectsOf "rescue_and_reset"
      (create_rescue_snapshot branch reason (collect_repo_sync_state env.collect)
        env.rescue).1,
    (resetPhase cfg branch env).1, rfl, ?_, ?_⟩
  · unfold rescueEffectsOf
    rw [if_pos (by decide)]
    exact hcounts.2.2
  · intro tgt hmem
    have h2 := create_rescue_effects branch reason
      (collect_repo_sync_state env.collect) env.rescue _
      (rescueEffectsOf_mem _ _ _ hmem)
    simp [Effect.isRescueWrite] at h2

/-- Witness for the amended C2: a concrete dirty repository in which
the rescue snapshot fully succeeds. -/
theorem C2_witness :
    infoC2.dirtyCount =
      (collect_repo_sync_state envC2w.collect).dirtyLines.length ∧
    infoC2.unpushedCount =
      (collect_repo_sync_state envC2w.collect).unpushedLines.length ∧
    ∃ t1 t2,
      (checkout_and_reset cfgD "feature" "r" (some "rescue_and_reset") envC2w).1 =
        t1 ++ t2 ∧
      Effect.mkdirRescueDir envC2w.rescue.dirName ∈ t1 ∧
      ∀ tgt, Effect.gitResetHard tgt ∉ t1 :=
  C2_rescue_before_reset cfgD "feature" "r" (some "rescue_and_reset") envC2w infoC2
    (by rfl) (by rfl) (Or.inl (by decide)) (by rfl)

/-- C3 counterexample: with a clean tree and a final git checkout that
exits nonzero, checkout_and_reset propagates CalledProcessError to its
caller instead of returning a failure pair, refuting the claim that it
never raises past its boundary. -/
theorem C3_counterexample :
    (checkout_and_reset cfgD "feature" "r" (some "ignore") envC3cx).2 =
      .error (.calledProcessError "git checkout") := by rfl

/-- C3 (amended): fetch failures, unsynced-policy blocks, rescue
failures, branch-creation failures and missing-branch verification are
all converted to structured (false, message) results, but a failure of
the final git checkout, of the hard reset, or of the HEAD rev-parse
(the three check=True calls at lines 327-337) escapes as an exception;
those are the only call sites whose failures propagate. -/
theorem C3_error_only_from_final_git_calls (cfg : GitConfig)
    (branch reason : String) (policy : Option String) (env : CheckoutEnv)
    (ex : PyExn)
    (h : (checkout_and_reset cfg branch reason policy env).2 = .error ex) :
    ex = .calledProcessError "git checkout" ∨ ex = .calledProcessError "git reset" ∨
      ex = .calledProcessError "git rev-parse HEAD" := by
  unfold checkout_and_reset at h
  exact resetPhase_error cfg branch env ex
    (core_error cfg branch reason (normalizePolicy policy) env ex h)

/-- Witness for the amended C3 at the concrete raising environment. -/
theorem C3_witness :
    PyExn.calledProcessError "git checkout" = .calledProcessError "git checkout" ∨
    PyExn.calledProcessError "git checkout" = .calledProcessError "git reset" ∨
    PyExn.calledProcessError "git checkout" = .calledProcessError "git rev-parse HEAD" :=
  C3_error_only_from_final_git_calls cfgD "feature" "r" (some "ignore") envC3cx
    (.calledProcessError "git checkout") (by rfl)

/-- C4: evaluation of the code at the failing input.  With the stable
branch missing from a reachable remote, git ls-remote exits 0, so the
creation path is skipped, and rev-parse --verify then fails: the call
returns the branch-not-found failure with no branch creation, no push
and no checkout in the trace, contradicting the claim that the missing
branch is created and the call proceeds. -/
theorem C4_missing_branch_not_created :
    checkout_and_reset cfgD "ouroboros-stable" "promote" (some "ignore") envC4 =
      ([Effect.appendLog "reset_branch_missing"],
       .ok (false, "Branch ouroboros-stable not found on remote")) := by rfl

/-- C5: safe_restart runs checkout_and_reset, then
sync_runtime_dependencies, then import test, in that strict order; each
failing stage short-circuits with its own message and no later stage
effect appears; only when all three stages succeed is a state document
saved with last_restart_ok_at set; on any failure every saved document
carries the loaded last_restart_ok_at unchanged. -/
theorem C5_safe_restart_stages (cfg : GitConfig) (reason : String)
    (policy : Option String) (e : SafeRestartEnv) :
    (∀ ex, (checkout_and_reset cfg cfg.branchDev reason policy e.checkout).2 =
        .error ex →
      safe_restart cfg reason policy e =
        ((checkout_and_reset cfg cfg.branchDev reason policy e.checkout).1,
         .error ex)) ∧
    (∀ m, (checkout_and_reset cfg cfg.branchDev reason policy e.checkout).2 =
        .ok (false, m) →
      safe_restart cfg reason policy e =
        ((checkout_and_reset cfg cfg.branchDev reason policy e.checkout).1,
         .ok (false, m))) ∧
    (∀ m, (checkout_and_reset cfg cfg.branchDev reason policy e.checkout).2 =
        .ok (true, m) →
      (sync_runtime_dependencies e.deps).2.1 = false →
      safe_restart cfg reason policy e =
        ((checkout_and_reset cfg cfg.branchDev reason policy e.checkout).1 ++
           (sync_runtime_dependencies e.deps).1,
         .ok (false, (sync_runtime_dependencies e.deps).2.2))) ∧
    (∀ m, (checkout_and_reset cfg cfg.branchDev reason policy e.checkout).2 =
        .ok (true, m) →
      (sync_runtime_dependencies e.deps).2.1 = true →
      (runImportTest e.imp).2.1 = false →
      safe_restart cfg reason policy e =
        ((checkout_and_reset cfg cfg.branchDev reason policy e.checkout).1 ++
           (sync_runtime_dependencies e.deps).1 ++ (runImportTest e.imp).1,
         .ok (false, (runImportTest e.imp).2.2))) ∧
    (∀ m, (checkout_and_reset cfg cfg.branchDev reason policy e.checkout).2 =
        .ok (true, m) →
      (sync_runtime_dependencies e.deps).2.1 = true →
      (runImportTest e.imp).2.1 = true →
      safe_restart cfg reason policy e =
        ((checkout_and_reset cfg cfg.branchDev reason policy e.checkout).1 ++
           (sync_runtime_dependencies e.deps).1 ++ (runImportTest e.imp).1 ++
           [Effect.saveState { e.stateDoc with
             lastRestartOkAt := some e.nowIso,
             lastRestartReason := some reason }],
         .ok (true, "ok"))) ∧
    (Effect.pipInstall ∉
        (checkout_and_reset cfg cfg.branchDev reason policy e.checkout).1 ∧
      Effect.importModules ∉
        (checkout_and_reset cfg cfg.branchDev reason policy e.checkout).1) ∧
    ((safe_restart cfg reason policy e).2 ≠ .ok (true, "ok") →
      ∀ d, Effect.saveState d ∈ (safe_restart cfg reason policy e).1 →
        d.lastRestartOkAt = e.checkout.stateDoc.lastRestartOkAt) := by
  have hsafe := core_restartSafe cfg cfg.branchDev reason (normalizePolicy policy)
    e.checkout
  have heqErr : ∀ ex,
      (checkout_and_reset cfg cfg.branchDev reason policy e.checkout).2 = .error ex →
      safe_restart cfg reason policy e =
        ((checkout_and_reset cfg cfg.branchDev reason policy e.checkout).1,
         .error ex) := by
    intro ex hex
    simp only [safe_restart, hex]
  have heqFalse : ∀ m,
      (checkout_and_reset cfg cfg.branchDev reason policy e.checkout).2 =
        .ok (false, m) →
      safe_restart cfg reason policy e =
        ((checkout_and_reset cfg cfg.branchDev reason policy e.checkout).1,
         .ok (false, m)) := by
    intro m hm
    simp only [safe_restart, hm]
    simp
  have heqDeps : ∀ m,
      (checkout_and_reset cfg cfg.branchDev reason policy e.checkout).2 =
        .ok (true, m) →
      (sync_runtime_dependencies e.deps).2.1 = false →
      safe_restart cfg reason policy e =
        ((checkout_and_reset cfg cfg.branchDev reason policy e.checkout).1 ++
           (sync_runtime_dependencies e.deps).1,
         .ok (false, (sync_runtime_dependencies e.deps).2.2)) := by
    intro m hm hdd
    simp only [safe_restart, hm, hdd]
    simp
  have heqImp : ∀ m,
      (checkout_and_reset cfg cfg.branchDev reason policy e.checkout).2 =
        .ok (true, m) →
      (sync_runtime_dependencies e.deps).2.1 = true →
      (runImportTest e.imp).2.1 = false →
      safe_restart cfg reason policy e =
        ((checkout_and_reset cfg cfg.branchDev reason policy e.checkout).1 ++
           (sync_runtime_dependencies e.deps).1 ++ (runImportTest e.imp).1,
         .ok (false, (runImportTest e.imp).2.2)) := by
    intro m hm hdd hii
    simp only [safe_restart, hm, hdd, hii]
    simp
  have heqOk : ∀ m,
      (checkout_and_reset cfg cfg.branchDev reason policy e.checkout).2 =
        .ok (true, m) →
      (sync_runtime_dependencies e.deps).2.1 = true →
      (runImportTest e.imp).2.1 = true →
      safe_restart cfg reason policy e =
        ((checkout_and_reset cfg cfg.branchDev reason policy e.checkout).1 ++
           (sync_runtime_dependencies e.deps).1 ++ (runImportTest e.imp).1 ++
           [Effect.saveState { e.stateDoc with
             lastRestartOkAt := some e.nowIso,
             lastRestartReason := some reason }],
         .ok (true, "ok")) := by
    intro m hm hdd hii
    simp only [safe_restart, hm, hdd, hii]
    simp
  refine ⟨heqErr, heqFalse, heqDeps, heqImp, heqOk, ⟨?_, ?_⟩, ?_⟩
  · intro hmem
    exact (hsafe _ hmem).1 rfl
  · intro hmem
    exact (hsafe _ hmem).2.1 rfl
  · intro hne d hd
    cases hcc : (checkout_and_reset cfg cfg.branchDev reason policy e.checkout).2 with
    | error ex =>
      rw [heqErr ex hcc] at hd
      exact (hsafe _ hd).2.2 d rfl
    | ok r1 =>
      obtain ⟨ok1, msg1⟩ := r1
      cases ok1 with
      | false =>
        rw [heqFalse msg1 hcc] at hd
        exact (hsafe _ hd).2.2 d rfl
      | true =>
        cases hdd : (sync_runtime_dependencies e.deps).2.1 with
        | false =>
          rw [heqDeps msg1 hcc hdd] at hd
          rcases List.mem_append.mp hd with h1 | h2
          · exact (hsafe _ h1).2.2 d rfl
          · exact absurd h2 (deps_trace_no_save e.deps d)
        | true =>
          cases hii : (runImportTest e.imp).2.1 with
          | false =>
            rw [heqImp msg1 hcc hdd hii] at hd
            rcases List.mem_append.mp hd with h1 | h2
            · rcases List.mem_append.mp h1 with h3 | h4
              · exact (hsafe _ h3).2.2 d rfl
              · exact absurd h4 (deps_trace_no_save e.deps d)
            · exact absurd h2 (import_trace_no_save e.imp d)
          | true =>
            exfalso
            apply hne
            rw [heqOk msg1 hcc hdd hii]

/-- Witness for C5: concrete environment in which the checkout succeeds
and pip fails, exercising the dependency-stage short circuit. -/
theorem C5_witness :
    safe_restart cfgD "restart" (some "rescue_and_reset") envC5 =
      ((checkout_and_reset cfgD cfgD.branchDev "restart" (some "rescue_and_reset")
          envC5.checkout).1 ++
         (sync_runtime_dependencies envC5.deps).1,
       .ok (false, (sync_runtime_dependencies envC5.deps).2.2)) :=
  (C5_safe_restart_stages cfgD "restart" (some "rescue_and_reset") envC5).2.2.1
    "ok" (by rfl) (by rfl)

/-- C6: on boot, if the restart marker exists, verification compares
the marker against the actual commit and branch, reports mismatch or an
unreadable marker as a non-fatal failure, and always deletes the marker
on the way out; if no marker exists, verification succeeds with no
deletion; and auto resume proceeds to record the outcome in the state
document regardless of the verification result. -/
theorem C6_restart_marker_verification (e : MarkerEnv) (st : StateDoc) :
    (e.markerExists = false →
      verify_restart_marker e = ([], (true, "No restart marker"))) ∧
    (e.markerExists = true →
      (verify_restart_marker e).1 = [Effect.unlinkMarker]) ∧
    (∀ msg, e.markerExists = true → e.parseResult = .error msg →
      (verify_restart_marker e).2.1 = false) ∧
    (∀ m, e.markerExists = true → e.parseResult = .ok m →
      e.headSha.rc = 0 → e.headBranch.rc = 0 →
      (some e.headSha.out ≠ m.expectedSha ∨
        some e.headBranch.out ≠ m.expectedBranch) →
      (verify_restart_marker e).2.1 = false) ∧
    (∀ m, e.markerExists = true → e.parseResult = .ok m →
      e.headSha.rc = 0 → e.headBranch.rc = 0 →
      some e.headSha.out = m.expectedSha →
      some e.headBranch.out = m.expectedBranch →
      (verify_restart_marker e).2 = (true, "ok")) ∧
    auto_resume_after_restart e st =
      (verify_restart_marker e).1 ++
        [Effect.saveState { st with
          autoResumeOk := some (verify_restart_marker e).2.1,
          autoResumeMsg := some (verify_restart_marker e).2.2 }] := by
  refine ⟨?_, ?_, ?_, ?_, ?_, rfl⟩
  · intro h
    unfold verify_restart_marker
    rw [if_pos h]
  · exact verify_marker_trace e
  · intro msg h hpr
    unfold verify_restart_marker
    rw [if_neg (by simp [h]), hpr]
  · intro m h hpr h1 h2 hne
    unfold verify_restart_marker
    rw [if_neg (by simp [h])]
    simp only [hpr]
    rw [if_neg (fun hcon => hcon h1), if_neg (fun hcon => hcon h2), if_pos hne]
  · intro m h hpr h1 h2 hsha hbr
    unfold verify_restart_marker
    rw [if_neg (by simp [h])]
    simp only [hpr]
    rw [if_neg (fun hcon => hcon h1), if_neg (fun hcon => hcon h2)]
    rw [if_neg (by push_neg; exact ⟨hsha, hbr⟩)]

/-- Witness for C6 at a present marker whose expected commit does not
match: the verification fails non-fatally and the marker is deleted. -/
theorem C6_witness :
    (verify_restart_marker envC6).1 = [Effect.unlinkMarker] ∧
    (verify_restart_marker envC6).2.1 = false :=
  ⟨(C6_restart_marker_verification envC6 stateDoc0).2.1 rfl,
   (C6_restart_marker_verification envC6 stateDoc0).2.2.2.1
     { expectedSha := some "aaa", expectedBranch := some "ouroboros" }
     rfl rfl rfl rfl (Or.inl (by decide))⟩

/-- C7: in the chat watchdog loop, during any maximal stall episode
(busy, idle at least soft but below hard) at most one soft-timeout
warning is emitted (regardless of the history that preceded the
episode), the run over a trace decomposes so those are exactly the
episode effects, and the suppression flag is cleared only when the
agent is not busy or the hard timeout fires. -/
theorem C7_watchdog_one_warning_per_episode (soft hard : Nat)
    (pre ep : List WatchObs)
    (hep : ∀ o ∈ ep, IsStall soft hard o) :
    countWarns (watchdogRun soft hard (watchdogRun soft hard false pre).1 ep).2 ≤ 1 ∧
    watchdogRun soft hard false (pre ++ ep) =
      ((watchdogRun soft hard (watchdogRun soft hard false pre).1 ep).1,
       (watchdogRun soft hard false pre).2 ++
         (watchdogRun soft hard (watchdogRun soft hard false pre).1 ep).2) ∧
    (∀ w o, (watchdogStep soft hard w o).1 = false →
      w = false ∨ o.busy = false ∨ hard ≤ o.idleSec) :=
  ⟨watchdogRun_stall_count soft hard ep _ hep,
   watchdogRun_append soft hard pre ep false,
   fun w o h => watchdogStep_clears_only soft hard w o h⟩

/-- Witness for C7: a two-observation stall episode with soft timeout
600 and hard timeout 1800 starting from a fresh flag. -/
theorem C7_witness :
    countWarns (watchdogRun 600 1800 (watchdogRun 600 1800 false []).1 epC7).2 ≤ 1 ∧
    watchdogRun 600 1800 false ([] ++ epC7) =
      ((watchdogRun 600 1800 (watchdogRun 600 1800 false []).1 epC7).1,
       (watchdogRun 600 1800 false []).2 ++
         (watchdogRun 600 1800 (watchdogRun 600 1800 false []).1 epC7).2) ∧
    (∀ w o, (watchdogStep 600 1800 w o).1 = false →
      w = false ∨ o.busy = false ∨ 1800 ≤ o.idleSec) :=
  C7_watchdog_one_warning_per_episode 600 1800 [] epC7 (by
    intro o ho
    simp only [epC7, List.mem_cons, List.not_mem_nil, or_false] at ho
    rcases ho with rfl | rfl
    · exact ⟨rfl, by decide, by decide⟩
    · exact ⟨rfl, by decide, by decide⟩)

/-- C8: if restoring the pending queue from the snapshot raises, boot
does not abort: the restored count is zero, the snapshot file is
deleted exactly when it exists, a fresh startup snapshot is persisted,
and no restored-count notification is sent. -/
theorem C8_corrupt_snapshot_boot (err : String) (snapExists : Bool)
    (owner : Option Nat) :
    bootRestorePending { restoreResult := .error err, snapshotExists := snapExists }
        owner =
      (0, (if snapExists then [BootEffect.deleteSnapshot] else []) ++
        [BootEffect.persistSnapshot "startup"]) := by
  unfold bootRestorePending
  simp

/-- C9: the rescue copy of untracked files is bounded: on every normal
return the metadata reports at most 200 copied files and at most
12000000 copied bytes, and when the ls-files listing succeeded the
truncated flag is false exactly when every listed path was either
copied or skipped, so it is set whenever a bound stopped the copy
early. -/
theorem C9_copy_untracked_bounds (e : CopyEnv) (effs : List Effect) (out : CopyOut)
    (h : copy_untracked_for_rescue e 200 12000000 = (effs, .ok out)) :
    out.copiedFiles ≤ 200 ∧ out.copiedBytes ≤ 12000000 ∧
    (e.lsFiles.rc = 0 →
      (out.truncated = false ↔
        out.copiedFiles + out.skippedFiles = (lsLines e.lsFiles).length)) := by
  unfold copy_untracked_for_rescue at h
  by_cases hrc : e.lsFiles.rc ≠ 0
  · rw [if_pos hrc] at h
    simp only [Prod.mk.injEq, Except.ok.injEq] at h
    obtain ⟨-, h2⟩ := h
    subst h2
    refine ⟨by simp [initCopyOut], by simp [initCopyOut], ?_⟩
    intro h0
    exact absurd h0 hrc
  · rw [if_neg hrc] at h
    by_cases hl : lsLines e.lsFiles = []
    · rw [if_pos hl] at h
      simp only [Prod.mk.injEq, Except.ok.injEq] at h
      obtain ⟨-, h2⟩ := h
      subst h2
      refine ⟨by simp [initCopyOut], by simp [initCopyOut], ?_⟩
      intro _
      simp [initCopyOut, hl]
    · rw [if_neg hl] at h
      by_cases hm : e.mkdirRootOk = false
      · rw [if_pos hm] at h
        simp at h
      · rw [if_neg hm] at h
        cases hr2 : (copyLoop e.fileInfo 200 12000000 (lsLines e.lsFiles)
            initCopyOut).2 with
        | error ex =>
          simp only [hr2] at h
          simp at h
        | ok p =>
          obtain ⟨out2, rem⟩ := p
          simp only [hr2, Prod.mk.injEq, Except.ok.injEq] at h
          obtain ⟨-, h2⟩ := h
          subst h2
          have hs := copyLoop_spec e.fileInfo 200 12000000 (lsLines e.lsFiles)
            initCopyOut
            (copyLoop e.fileInfo 200 12000000 (lsLines e.lsFiles) initCopyOut).1
            out2 rem (Prod.ext_iff.mpr ⟨rfl, hr2⟩)
          refine ⟨hs.1 (by simp [initCopyOut]), hs.2.1 (by simp [initCopyOut]), ?_⟩
          intro _
          have hcount := hs.2.2.1
          have htr := hs.2.2.2 (by simp [initCopyOut])
          simp only [initCopyOut] at hcount
          constructor
          · intro ht
            have hrem : rem = [] := by
              by_contra hne
              rw [htr.mpr hne] at ht
              exact Bool.true_eq_false.mp ht
            rw [hrem] at hcount
            simp at hcount
            omega
          · intro hceq
            cases htt : out2.truncated with
            | false => rfl
            | true =>
              have hne := htr.mp htt
              have hpos : 0 < rem.length := List.length_pos.mpr hne
              omega

/-- Witness for C9: two small untracked files are copied in full. -/
theorem C9_witness :
    ({ copiedFiles := 2, skippedFiles := 0, copiedBytes := 10,
       truncated := false, errorMsg := none } : CopyOut).copiedFiles ≤ 200 ∧
    ({ copiedFiles := 2, skippedFiles := 0, copiedBytes := 10,
       truncated := false, errorMsg := none } : CopyOut).copiedBytes ≤ 12000000 ∧
    (envC9.lsFiles.rc = 0 →
      (({ copiedFiles := 2, skippedFiles := 0, copiedBytes := 10,
          truncated := false, errorMsg := none } : CopyOut).truncated = false ↔
        ({ copiedFiles := 2, skippedFiles := 0, copiedBytes := 10,
           truncated := false, errorMsg := none } : CopyOut).copiedFiles +
          ({ copiedFiles := 2, skippedFiles := 0, copiedBytes := 10,
             truncated := false, errorMsg := none } : CopyOut).skippedFiles =
          (lsLines envC9.lsFiles).length)) :=
  C9_copy_untracked_bounds envC9
    [Effect.mkdirUntrackedRoot, Effect.mkdirParentDir "a.txt",
     Effect.copyFile "a.txt", Effect.mkdirParentDir "b.txt",
     Effect.copyFile "b.txt"]
    { copiedFiles := 2, skippedFiles := 0, copiedBytes := 10,
      truncated := false, errorMsg := none } (by rfl)

/-- C10: any unsynced_policy whose normalisation (None or empty treated
as ignore, then strip and lowercase) is none of block, rescue_and_block
and rescue_and_reset makes checkout_and_reset behave exactly as policy
ignore: the whole run (effects and result) coincides with the ignore
run, and in particular no rescue-snapshot effect ever occurs, so the
destructive reset proceeds unprotected even over dirty or unpushed
work. -/
theorem C10_unknown_policy_behaves_as_ignore (cfg : GitConfig)
    (branch reason : String) (policy : Option String) (env : CheckoutEnv)
    (hp : normalizePolicy policy ≠ "block" ∧
          normalizePolicy policy ≠ "rescue_and_block" ∧
          normalizePolicy policy ≠ "rescue_and_reset") :
    checkout_and_reset cfg branch reason policy env =
      checkout_and_reset cfg branch reason (some "ignore") env ∧
    ∀ x ∈ (checkout_and_reset cfg branch reason policy env).1,
      x.isRescueWrite = false := by
  have hpi : normalizePolicy policy = "ignore" := by
    rcases normalizePolicy_cases policy with h | h | h | h
    · exact h
    · exact absurd h hp.1
    · exact absurd h hp.2.1
    · exact absurd h hp.2.2
  have hign : normalizePolicy (some "ignore") = "ignore" := by decide
  constructor
  · unfold checkout_and_reset
    rw [hpi, hign]
  · intro x hx
    unfold checkout_and_reset at hx
    rw [hpi] at hx
    exact core_ignore_no_rescue cfg branch reason env x hx

/-- Witness for C10: a noisy unrecognised policy string over a dirty
repository coincides with the ignore run and produces no rescue
effects. -/
theorem C10_witness :
    checkout_and_reset cfgD "feature" "r" (some " Bogus Policy ") envC10 =
      checkout_and_reset cfgD "feature" "r" (some "ignore") envC10 ∧
    ∀ x ∈ (checkout_and_reset cfgD "feature" "r" (some " Bogus Policy ") envC10).1,
      x.isRescueWrite = false :=
  C10_unknown_policy_behaves_as_ignore cfgD "feature" "r" (some " Bogus Policy ")
    envC10 ⟨by decide, by decide, by decide⟩

end Ouroboros
